import Mathlib

set_option linter.unusedVariables false

/-!
Verification of the trusted-hint-controller client library: a shallow
embedding of the TypeScript sources (`src/utils.ts`, `src/errors.ts`,
`src/TrustedHintController.ts`) and proofs about the EIP-712 schema
selector, the authorization gate and the transaction assembler.

External collaborators (the registry contract reads/writes and the wallet
signing capability) are modelled as an environment of response functions;
each controller operation is embedded as a pure function returning its
result together with the ordered trace of external calls it performed, so
that temporal claims (what is called, in which order, and what is never
called) become statements about the trace.
-/

namespace TrustedHint

/-- A wallet account: `viem`'s `Account`, of which the code only uses `address`. -/
structure Account where
  address : String
deriving DecidableEq

/-- A chain object: `viem`'s `Chain`, of which the code only uses `id`. -/
structure Chain where
  id : Nat
deriving DecidableEq

/-- A `viem` `WalletClient` as used by the controller: possibly-unset chain
and account (`client.chain?` / `client.account?` in the source). -/
structure WalletClient where
  chain : Option Chain
  account : Option Account
deriving DecidableEq

/-- The `TrustedHintController` instance state: the two optional clients and
the resolved registry contract address (`this.contract.address`). -/
structure Controller where
  walletClient : Option WalletClient
  metaTransactionWalletClient : Option WalletClient
  contractAddress : String
deriving DecidableEq

/-- A JavaScript error as surfaced to callers: its `name` property (the
constructor name, `"Error"` for plain `new Error(...)`) and its `message`. -/
structure JsError where
  name : String
  message : String
deriving DecidableEq

/-- `new Error(message)`: a plain JavaScript error, `name` is `"Error"`. -/
def mkError (message : String) : JsError := ⟨"Error", message⟩

/-- `ClientNotSetError` from `src/errors.ts` (sets `name` to the class name). -/
def clientNotSetError (clientType : String) : JsError :=
  ⟨"ClientNotSetError", clientType ++ " must be set and properly configured."⟩

/-- `ClientMisconfiguredError` from `src/errors.ts`. -/
def clientMisconfiguredError (message : String) : JsError :=
  ⟨"ClientMisconfiguredError", message⟩

/-- `NotOwnerError` from `src/errors.ts`. -/
def notOwnerError (clientType : String) : JsError :=
  ⟨"NotOwnerError", "Provided " ++ clientType ++ " must be the owner of the namespace."⟩

/-- `NotDelegateError` from `src/errors.ts`. -/
def notDelegateError (clientType : String) : JsError :=
  ⟨"NotDelegateError", "Provided " ++ clientType ++ " must be a delegate of the namespace."⟩

/-- The `name` values of every error class declared in `src/errors.ts`
(each class sets `this.name = this.constructor.name`). -/
def taxonomyErrorNames : List String :=
  ["TrustedHintControllerError", "ClientNotSetError", "ClientMisconfiguredError",
   "NotOwnerError", "NotDelegateError", "HintSetError", "MetaTransactionError",
   "DelegateManagementError", "ListStatusError", "ListOwnerError", "MetadataOperationError"]

/-! ## Schema selector (`src/utils.ts`, `getSignedDataType`) -/

/-- One EIP-712 field: `{name, type}` as in the source's schema literals. -/
structure TypedDataField where
  name : String
  type : String
deriving DecidableEq

/-- An EIP-712 type definition as returned by `getSignedDataType`: the
primary struct name and its ordered field list. -/
structure TypedData where
  primaryType : String
  fields : List TypedDataField
deriving DecidableEq

/-- The `SignedDataType` enum from `src/utils.ts` (14 variants). -/
inductive SignedDataType where
  | SetHintSigned
  | SetHintSignedMetadata
  | SetHintsSigned
  | SetHintsSignedMetadata
  | SetHintDelegatedSigned
  | SetHintDelegatedSignedMetadata
  | SetHintsDelegatedSigned
  | SetHintsDelegatedSignedMetadata
  | AddListDelegateSigned
  | RemoveListDelegateSigned
  | SetListStatusSigned
  | SetListOwnerSigned
  | SetMetadataSigned
  | SetMetadataDelegatedSigned
deriving DecidableEq

/-- `getSignedDataType` from `src/utils.ts`: the EIP-712 schema for each
signed-operation variant, fields in source order. -/
def getSignedDataType : SignedDataType → TypedData
  | .SetHintSigned =>
    ⟨"SetHintSigned",
     [⟨"namespace", "address"⟩, ⟨"list", "bytes32"⟩, ⟨"key", "bytes32"⟩,
      ⟨"value", "bytes32"⟩, ⟨"signer", "address"⟩, ⟨"nonce", "uint256"⟩]⟩
  | .SetHintSignedMetadata =>
    ⟨"SetHintSigned",
     [⟨"namespace", "address"⟩, ⟨"list", "bytes32"⟩, ⟨"key", "bytes32"⟩,
      ⟨"value", "bytes32"⟩, ⟨"metadata", "bytes"⟩, ⟨"signer", "address"⟩,
      ⟨"nonce", "uint256"⟩]⟩
  | .SetHintsSigned =>
    ⟨"SetHintsSigned",
     [⟨"namespace", "address"⟩, ⟨"list", "bytes32"⟩, ⟨"keys", "bytes32[]"⟩,
      ⟨"values", "bytes32[]"⟩, ⟨"signer", "address"⟩, ⟨"nonce", "uint256"⟩]⟩
  | .SetHintsSignedMetadata =>
    ⟨"SetHintsSigned",
     [⟨"namespace", "address"⟩, ⟨"list", "bytes32"⟩, ⟨"keys", "bytes32[]"⟩,
      ⟨"values", "bytes32[]"⟩, ⟨"metadata", "bytes[]"⟩, ⟨"signer", "address"⟩,
      ⟨"nonce", "uint256"⟩]⟩
  | .SetHintDelegatedSigned =>
    ⟨"SetHintDelegatedSigned",
     [⟨"namespace", "address"⟩, ⟨"list", "bytes32"⟩, ⟨"key", "bytes32"⟩,
      ⟨"value", "bytes32"⟩, ⟨"signer", "address"⟩, ⟨"nonce", "uint256"⟩]⟩
  | .SetHintDelegatedSignedMetadata =>
    ⟨"SetHintDelegatedSigned",
     [⟨"namespace", "address"⟩, ⟨"list", "bytes32"⟩, ⟨"key", "bytes32"⟩,
      ⟨"value", "bytes32"⟩, ⟨"metadata", "bytes"⟩, ⟨"signer", "address"⟩,
      ⟨"nonce", "uint256"⟩]⟩
  | .SetHintsDelegatedSigned =>
    ⟨"SetHintsDelegatedSigned",
     [⟨"namespace", "address"⟩, ⟨"list", "bytes32"⟩, ⟨"keys", "bytes32[]"⟩,
      ⟨"values", "bytes32[]"⟩, ⟨"signer", "address"⟩, ⟨"nonce", "uint256"⟩]⟩
  | .SetHintsDelegatedSignedMetadata =>
    ⟨"SetHintsDelegatedSigned",
     [⟨"namespace", "address"⟩, ⟨"list", "bytes32"⟩, ⟨"keys", "bytes32[]"⟩,
      ⟨"values", "bytes32[]"⟩, ⟨"metadata", "bytes[]"⟩, ⟨"signer", "address"⟩,
      ⟨"nonce", "uint256"⟩]⟩
  | .AddListDelegateSigned =>
    ⟨"AddListDelegateSigned",
     [⟨"namespace", "address"⟩, ⟨"list", "bytes32"⟩, ⟨"delegate", "address"⟩,
      ⟨"untilTimestamp", "uint256"⟩, ⟨"signer", "address"⟩, ⟨"nonce", "uint256"⟩]⟩
  | .RemoveListDelegateSigned =>
    ⟨"RemoveListDelegateSigned",
     [⟨"namespace", "address"⟩, ⟨"list", "bytes32"⟩, ⟨"delegate", "address"⟩,
      ⟨"signer", "address"⟩, ⟨"nonce", "uint256"⟩]⟩
  | .SetListStatusSigned =>
    ⟨"SetListStatusSigned",
     [⟨"namespace", "address"⟩, ⟨"list", "bytes32"⟩, ⟨"revoked", "bool"⟩,
      ⟨"signer", "address"⟩, ⟨"nonce", "uint256"⟩]⟩
  | .SetListOwnerSigned =>
    ⟨"SetListOwnerSigned",
     [⟨"namespace", "address"⟩, ⟨"list", "bytes32"⟩, ⟨"newOwner", "address"⟩,
      ⟨"signer", "address"⟩, ⟨"nonce", "uint256"⟩]⟩
  | .SetMetadataSigned =>
    ⟨"SetMetadataSigned",
     [⟨"namespace", "address"⟩, ⟨"list", "bytes32"⟩, ⟨"key", "bytes32"⟩,
      ⟨"value", "bytes32"⟩, ⟨"metadata", "bytes"⟩, ⟨"signer", "address"⟩,
      ⟨"nonce", "uint256"⟩]⟩
  | .SetMetadataDelegatedSigned =>
    ⟨"SetMetadataDelegatedSigned",
     [⟨"namespace", "address"⟩, ⟨"list", "bytes32"⟩, ⟨"key", "bytes32"⟩,
      ⟨"value", "bytes32"⟩, ⟨"metadata", "bytes"⟩, ⟨"signer", "address"⟩,
      ⟨"nonce", "uint256"⟩]⟩

/-- The names of a schema's fields, in order. -/
def fieldNames (td : TypedData) : List String := td.fields.map TypedDataField.name

/-- Insert a `metadata` field of the given wire type immediately before the
first field named `signer`. -/
def insertMetadataBeforeSigner (wire : String) : List TypedDataField → List TypedDataField
  | [] => []
  | f :: rest =>
    if f.name = "signer" then ⟨"metadata", wire⟩ :: f :: rest
    else f :: insertMetadataBeforeSigner wire rest

/-- The (base variant, metadata variant, metadata wire type) triples of the
operation kinds that support optional metadata. -/
def metadataVariantPairs : List (SignedDataType × SignedDataType × String) :=
  [(.SetHintSigned, .SetHintSignedMetadata, "bytes"),
   (.SetHintsSigned, .SetHintsSignedMetadata, "bytes[]"),
   (.SetHintDelegatedSigned, .SetHintDelegatedSignedMetadata, "bytes"),
   (.SetHintsDelegatedSigned, .SetHintsDelegatedSignedMetadata, "bytes[]")]

/-! ## External calls and the environment -/

/-- An argument value in a contract call or EIP-712 message: hex strings,
numbers (nonces, timestamps, chain ids) and arrays (batch variants). -/
inductive Value where
  | str (s : String)
  | nat (n : Nat)
  | arr (vs : List String)
deriving DecidableEq

/-- An EIP-712 domain as built by `getEIP712Domain`. -/
structure Domain where
  name : String
  version : String
  chainId : Nat
  verifyingContract : String
deriving DecidableEq

/-- One external call performed by an operation, with its arguments in the
order the source passes them. -/
inductive ExtCall where
  /-- `contract.read.getHint([namespace, list, key])` -/
  | readGetHint (ns listId key : String)
  /-- `contract.read.identityIsOwner([namespace, list, owner])` -/
  | readIdentityIsOwner (ns listId owner : String)
  /-- `contract.read.identityIsDelegate([namespace, list, delegate])` -/
  | readIdentityIsDelegate (ns listId delegate : String)
  /-- `contract.read.nonces([address])` -/
  | readNonces (address : String)
  /-- `contract.read.version()` -/
  | readVersion
  /-- `metaTransactionWalletClient.signTypedData({account, domain, types, primaryType, message})` -/
  | signTypedData (account : String) (domain : Domain) (types : TypedData)
      (primaryType : String) (message : List (String × Value))
  /-- `contract.write.<method>(args, {chain, account})` -/
  | writeCall (method : String) (args : List Value) (chainId : Nat) (account : String)
deriving DecidableEq

/-- Responses of the external collaborators (registry reads, the signing
wallet, the write transport). Each response may be a rejection (`JsError`). -/
structure Env where
  getHint : String → String → String → Except JsError String
  identityIsOwner : String → String → String → Except JsError Bool
  identityIsDelegate : String → String → String → Except JsError Bool
  nonces : String → Except JsError Nat
  version : Except JsError String
  signTypedData : String → Domain → TypedData → String → List (String × Value) →
      Except JsError String
  write : String → List Value → Except JsError String

/-- The outcome of one public operation: the settled result of its returned
promise, plus the ordered trace of external calls made in that invocation. -/
abbrev Run := Except JsError String × List ExtCall

/-- JavaScript loose equality (`==`) restricted to possibly-`undefined`
numbers, as used on `chain?.id` by the signed operations' chain check
(`undefined == undefined` is `true`; `undefined == n` is `false`). -/
def looseEqOpt : Option Nat → Option Nat → Bool
  | some a, some b => a == b
  | none, none => true
  | _, _ => false

/-! ## Error messages and wrappers of the controller (all plain `new Error`) -/

/-- Thrown when `walletClient` lacks a chain or account. -/
def msgWalletChainAccount : String := "WalletClient must have a chain and account set."

/-- Thrown when `metaTransactionWalletClient` (or its account) is missing. -/
def msgMetaTxNotSet : String :=
  "metaTransactionWalletClient must be set when creating a TrustedHintController instance"

/-- Thrown by the signed operations' chain check. -/
def msgSameChain : String :=
  "Provided WalletClient and MetaTransactionWalletClient must be on the same chain."

/-- Thrown when the relaying wallet fails the owner check. -/
def msgWalletMustOwn : String := "Provided WalletClient must be the owner of the namespace."

/-- Thrown when the meta-transaction signer fails the owner check. -/
def msgMetaTxMustOwn : String :=
  "Provided MetaTransactionWalletClient must be the owner of the namespace."

/-- Thrown by `getEIP712Domain` when the meta-transaction client has no chain. -/
def msgWalletChainSet : String := "WalletClient must have a chain set."

/-- The `catch` wrapper of `setHint`. -/
def wrapSetHint (e : JsError) : JsError := mkError ("Failed to set hint: " ++ e.message)

/-- The `catch` wrapper of `setHintSigned`. -/
def wrapSetHintSigned (e : JsError) : JsError :=
  mkError ("Failed to set hint signed: " ++ e.message)

/-- The `catch` wrapper of `setHints`. -/
def wrapSetHints (e : JsError) : JsError := mkError ("Failed to set hints: " ++ e.message)

/-- The `catch` wrapper of `setHintsSigned`. -/
def wrapSetHintsSigned (e : JsError) : JsError :=
  mkError ("Failed to set hints signed: " ++ e.message)

/-- The `catch` wrapper of `addListDelegate`. -/
def wrapAddListDelegate (e : JsError) : JsError :=
  mkError ("Failed to add list delegate: " ++ e.message)

/-! ## Read-only operations -/

/-- `getHint`: a pass-through of `contract.read.getHint`. -/
def Controller.getHint (c : Controller) (env : Env) (ns listId key : String) : Run :=
  (env.getHint ns listId key, [ExtCall.readGetHint ns listId key])

/-- `isListOwner`: a pass-through of `contract.read.identityIsOwner`
(result delivered as a boolean; we carry it separately for writes). -/
def Controller.isListOwner (c : Controller) (env : Env) (ns listId owner : String) :
    Except JsError Bool × List ExtCall :=
  (env.identityIsOwner ns listId owner, [ExtCall.readIdentityIsOwner ns listId owner])

/-- `isListDelegate`: a pass-through of `contract.read.identityIsDelegate`. -/
def Controller.isListDelegate (c : Controller) (env : Env) (ns listId delegate : String) :
    Except JsError Bool × List ExtCall :=
  (env.identityIsDelegate ns listId delegate, [ExtCall.readIdentityIsDelegate ns listId delegate])

/-! ## Write operations

The `try { ... } catch (e) { throw new Error("Failed to ...: " + e.message) }`
blocks wrap every rejection of an `await`ed step. The final
`return this.contract.write...(...)` is **not** awaited, so a rejection of
the submitted write escapes the `catch` unwrapped; the embedding returns
`env.write ...` as the result without applying the wrapper. -/

/-- `setHint`'s positional argument list for `contract.write.setHint`
(metadata changes the arity, not just the content). -/
def setHintArgs (ns listId key value : String) (metadata : Option String) : List Value :=
  match metadata with
  | some md => [Value.str ns, Value.str listId, Value.str key, Value.str value, Value.str md]
  | none => [Value.str ns, Value.str listId, Value.str key, Value.str value]

/-- `setHints`'s positional argument list for `contract.write.setHints`. -/
def setHintsArgs (ns listId : String) (keys values : List String)
    (metadata : Option (List String)) : List Value :=
  match metadata with
  | some mds => [Value.str ns, Value.str listId, Value.arr keys, Value.arr values,
                 Value.arr mds]
  | none => [Value.str ns, Value.str listId, Value.arr keys, Value.arr values]

/-- `addListDelegate`'s positional argument list. -/
def addListDelegateArgs (ns listId delegate : String) (delegateUntil : Nat) : List Value :=
  [Value.str ns, Value.str listId, Value.str delegate, Value.nat delegateUntil]

/-- `setHintSigned`'s `const type = metadata ? ... : ...`. -/
def setHintSignedTypes : Option String → TypedData
  | some _ => getSignedDataType .SetHintSignedMetadata
  | none => getSignedDataType .SetHintSigned

/-- `setHintSigned`'s `const message = ...`: ordered fields of the signed
message object. -/
def setHintSignedMessage (ns listId key value : String) (metadata : Option String)
    (signer : String) (nonce : Nat) : List (String × Value) :=
  match metadata with
  | some md =>
    [("namespace", Value.str ns), ("list", Value.str listId), ("key", Value.str key),
     ("value", Value.str value), ("metadata", Value.str md), ("signer", Value.str signer),
     ("nonce", Value.nat nonce)]
  | none =>
    [("namespace", Value.str ns), ("list", Value.str listId), ("key", Value.str key),
     ("value", Value.str value), ("signer", Value.str signer), ("nonce", Value.nat nonce)]

/-- `setHintSigned`'s final positional argument list for
`contract.write.setHintSigned`. -/
def setHintSignedArgs (ns listId key value : String) (metadata : Option String)
    (signer signature : String) : List Value :=
  match metadata with
  | some md =>
    [Value.str ns, Value.str listId, Value.str key, Value.str value, Value.str md,
     Value.str signer, Value.str signature]
  | none =>
    [Value.str ns, Value.str listId, Value.str key, Value.str value,
     Value.str signer, Value.str signature]

/-- `setHintsSigned`'s `const type = metadata ? ... : ...`. -/
def setHintsSignedTypes : Option (List String) → TypedData
  | some _ => getSignedDataType .SetHintsSignedMetadata
  | none => getSignedDataType .SetHintsSigned

/-- `setHintsSigned`'s `const message = ...`. -/
def setHintsSignedMessage (ns listId : String) (keys values : List String)
    (metadata : Option (List String)) (signer : String) (nonce : Nat) :
    List (String × Value) :=
  match metadata with
  | some mds =>
    [("namespace", Value.str ns), ("list", Value.str listId), ("keys", Value.arr keys),
     ("values", Value.arr values), ("metadata", Value.arr mds),
     ("signer", Value.str signer), ("nonce", Value.nat nonce)]
  | none =>
    [("namespace", Value.str ns), ("list", Value.str listId), ("keys", Value.arr keys),
     ("values", Value.arr values), ("signer", Value.str signer), ("nonce", Value.nat nonce)]

/-- `setHintsSigned`'s final positional argument list. -/
def setHintsSignedArgs (ns listId : String) (keys values : List String)
    (metadata : Option (List String)) (signer signature : String) : List Value :=
  match metadata with
  | some mds =>
    [Value.str ns, Value.str listId, Value.arr keys, Value.arr values, Value.arr mds,
     Value.str signer, Value.str signature]
  | none =>
    [Value.str ns, Value.str listId, Value.arr keys, Value.arr values,
     Value.str signer, Value.str signature]

/-- `setHint(namespace, list, key, value, metadata?)`. -/
def Controller.setHint (c : Controller) (env : Env)
    (ns listId key value : String) (metadata : Option String) : Run :=
  match c.walletClient with
  | none => (Except.error (mkError msgWalletChainAccount), [])
  | some wc =>
    match wc.chain, wc.account with
    | some wchain, some waccount =>
      let authCall := ExtCall.readIdentityIsOwner ns listId waccount.address
      match env.identityIsOwner ns listId waccount.address with
      | Except.error e => (Except.error (wrapSetHint e), [authCall])
      | Except.ok false =>
          (Except.error (wrapSetHint (mkError msgWalletMustOwn)), [authCall])
      | Except.ok true =>
        let args := setHintArgs ns listId key value metadata
        (env.write "setHint" args,
         [authCall, ExtCall.writeCall "setHint" args wchain.id waccount.address])
    | _, _ => (Except.error (mkError msgWalletChainAccount), [])

/-- `setHints(namespace, list, keys, values, metadata?)` (batch). -/
def Controller.setHints (c : Controller) (env : Env)
    (ns listId : String) (keys values : List String) (metadata : Option (List String)) : Run :=
  match c.walletClient with
  | none => (Except.error (mkError msgWalletChainAccount), [])
  | some wc =>
    match wc.chain, wc.account with
    | some wchain, some waccount =>
      let authCall := ExtCall.readIdentityIsOwner ns listId waccount.address
      match env.identityIsOwner ns listId waccount.address with
      | Except.error e => (Except.error (wrapSetHints e), [authCall])
      | Except.ok false =>
          (Except.error (wrapSetHints (mkError msgWalletMustOwn)), [authCall])
      | Except.ok true =>
        let args := setHintsArgs ns listId keys values metadata
        (env.write "setHints" args,
         [authCall, ExtCall.writeCall "setHints" args wchain.id waccount.address])
    | _, _ => (Except.error (mkError msgWalletChainAccount), [])

/-- `addListDelegate(namespace, list, delegate, delegateUntil)`; the
timestamp is normalized with `BigInt(...)`, modelled as `Nat`. -/
def Controller.addListDelegate (c : Controller) (env : Env)
    (ns listId delegate : String) (delegateUntil : Nat) : Run :=
  match c.walletClient with
  | none => (Except.error (mkError msgWalletChainAccount), [])
  | some wc =>
    match wc.chain, wc.account with
    | some wchain, some waccount =>
      let authCall := ExtCall.readIdentityIsOwner ns listId waccount.address
      match env.identityIsOwner ns listId waccount.address with
      | Except.error e => (Except.error (wrapAddListDelegate e), [authCall])
      | Except.ok false =>
          (Except.error (wrapAddListDelegate (mkError msgWalletMustOwn)), [authCall])
      | Except.ok true =>
        let args := addListDelegateArgs ns listId delegate delegateUntil
        (env.write "addListDelegate" args,
         [authCall, ExtCall.writeCall "addListDelegate" args wchain.id waccount.address])
    | _, _ => (Except.error (mkError msgWalletChainAccount), [])

/-- `setHintSigned(namespace, list, key, value, metadata?)`: the
meta-transaction variant. Checks the meta client and its account, the
relaying wallet's chain/account, then `metaClient.chain?.id != wallet.chain?.id`
with JavaScript loose inequality; inside the `try` it runs the owner check
against the signer, fetches the signer nonce, builds the EIP-712 domain
(reading the live registry version), requests the signature from the
signer, and submits the write from the relaying wallet. -/
def Controller.setHintSigned (c : Controller) (env : Env)
    (ns listId key value : String) (metadata : Option String) : Run :=
  match c.metaTransactionWalletClient with
  | none => (Except.error (mkError msgMetaTxNotSet), [])
  | some mtc =>
    match mtc.account with
    | none => (Except.error (mkError msgMetaTxNotSet), [])
    | some metaSigner =>
      match c.walletClient with
      | none => (Except.error (mkError msgWalletChainAccount), [])
      | some wc =>
        match wc.chain, wc.account with
        | some wchain, some waccount =>
          if looseEqOpt (mtc.chain.map Chain.id) (some wchain.id) then
            let authCall := ExtCall.readIdentityIsOwner ns listId metaSigner.address
            match env.identityIsOwner ns listId metaSigner.address with
            | Except.error e => (Except.error (wrapSetHintSigned e), [authCall])
            | Except.ok false =>
                (Except.error (wrapSetHintSigned (mkError msgMetaTxMustOwn)), [authCall])
            | Except.ok true =>
              let noncesCall := ExtCall.readNonces metaSigner.address
              match env.nonces metaSigner.address with
              | Except.error e =>
                  (Except.error (wrapSetHintSigned e), [authCall, noncesCall])
              | Except.ok signerNonce =>
                let types := setHintSignedTypes metadata
                let message := setHintSignedMessage ns listId key value metadata
                  metaSigner.address signerNonce
                match mtc.chain with
                | none =>
                    (Except.error (wrapSetHintSigned (mkError msgWalletChainSet)),
                     [authCall, noncesCall])
                | some mchain =>
                  match env.version with
                  | Except.error e =>
                      (Except.error (wrapSetHintSigned e),
                       [authCall, noncesCall, ExtCall.readVersion])
                  | Except.ok ver =>
                    let domain : Domain :=
                      ⟨"TrustedHintRegistry", ver, mchain.id, c.contractAddress⟩
                    let signCall := ExtCall.signTypedData metaSigner.address domain types
                      "SetHintSigned" message
                    match env.signTypedData metaSigner.address domain types
                        "SetHintSigned" message with
                    | Except.error e =>
                        (Except.error (wrapSetHintSigned e),
                         [authCall, noncesCall, ExtCall.readVersion, signCall])
                    | Except.ok signature =>
                      let args := setHintSignedArgs ns listId key value metadata
                        metaSigner.address signature
                      (env.write "setHintSigned" args,
                       [authCall, noncesCall, ExtCall.readVersion, signCall,
                        ExtCall.writeCall "setHintSigned" args wchain.id waccount.address])
          else
            (Except.error (mkError msgSameChain), [])
        | _, _ => (Except.error (mkError msgWalletChainAccount), [])

/-- `setHintsSigned(namespace, list, keys, values, metadata?)`: the batch
meta-transaction variant, same pipeline as `setHintSigned`. -/
def Controller.setHintsSigned (c : Controller) (env : Env)
    (ns listId : String) (keys values : List String) (metadata : Option (List String)) : Run :=
  match c.metaTransactionWalletClient with
  | none => (Except.error (mkError msgMetaTxNotSet), [])
  | some mtc =>
    match mtc.account with
    | none => (Except.error (mkError msgMetaTxNotSet), [])
    | some metaSigner =>
      match c.walletClient with
      | none => (Except.error (mkError msgWalletChainAccount), [])
      | some wc =>
        match wc.chain, wc.account with
        | some wchain, some waccount =>
          if looseEqOpt (mtc.chain.map Chain.id) (some wchain.id) then
            let authCall := ExtCall.readIdentityIsOwner ns listId metaSigner.address
            match env.identityIsOwner ns listId metaSigner.address with
            | Except.error e => (Except.error (wrapSetHintsSigned e), [authCall])
            | Except.ok false =>
                (Except.error (wrapSetHintsSigned (mkError msgMetaTxMustOwn)), [authCall])
            | Except.ok true =>
              let noncesCall := ExtCall.readNonces metaSigner.address
              match env.nonces metaSigner.address with
              | Except.error e =>
                  (Except.error (wrapSetHintsSigned e), [authCall, noncesCall])
              | Except.ok signerNonce =>
                let types := setHintsSignedTypes metadata
                let message := setHintsSignedMessage ns listId keys values metadata
                  metaSigner.address signerNonce
                match mtc.chain with
                | none =>
                    (Except.error (wrapSetHintsSigned (mkError msgWalletChainSet)),
                     [authCall, noncesCall])
                | some mchain =>
                  match env.version with
                  | Except.error e =>
                      (Except.error (wrapSetHintsSigned e),
                       [authCall, noncesCall, ExtCall.readVersion])
                  | Except.ok ver =>
                    let domain : Domain :=
                      ⟨"TrustedHintRegistry", ver, mchain.id, c.contractAddress⟩
                    let signCall := ExtCall.signTypedData metaSigner.address domain types
                      "SetHintsSigned" message
                    match env.signTypedData metaSigner.address domain types
                        "SetHintsSigned" message with
                    | Except.error e =>
                        (Except.error (wrapSetHintsSigned e),
                         [authCall, noncesCall, ExtCall.readVersion, signCall])
                    | Except.ok signature =>
                      let args := setHintsSignedArgs ns listId keys values metadata
                        metaSigner.address signature
                      (env.write "setHintsSigned" args,
                       [authCall, noncesCall, ExtCall.readVersion, signCall,
                        ExtCall.writeCall "setHintsSigned" args wchain.id waccount.address])
          else
            (Except.error (mkError msgSameChain), [])
        | _, _ => (Except.error (mkError msgWalletChainAccount), [])

/-! ## Concrete environments and controllers for witnesses and counterexamples -/

/-- An environment where every external call succeeds. -/
def envAllOk : Env :=
  ⟨fun _ _ _ => Except.ok "0xvalue",
   fun _ _ _ => Except.ok true,
   fun _ _ _ => Except.ok true,
   fun _ => Except.ok 7,
   Except.ok "1.0.0",
   fun _ _ _ _ _ => Except.ok "0xsig",
   fun _ _ => Except.ok "0xtxhash"⟩

/-- An environment whose owner and delegate queries return `false`. -/
def envAuthFalse : Env :=
  ⟨fun _ _ _ => Except.ok "0xvalue",
   fun _ _ _ => Except.ok false,
   fun _ _ _ => Except.ok false,
   fun _ => Except.ok 7,
   Except.ok "1.0.0",
   fun _ _ _ _ _ => Except.ok "0xsig",
   fun _ _ => Except.ok "0xtxhash"⟩

/-- An environment whose write submission rejects with the chain client's
own error (as a reverted transaction surfaces through `viem`). -/
def envWriteRejects : Env :=
  ⟨fun _ _ _ => Except.ok "0xvalue",
   fun _ _ _ => Except.ok true,
   fun _ _ _ => Except.ok true,
   fun _ => Except.ok 7,
   Except.ok "1.0.0",
   fun _ _ _ _ _ => Except.ok "0xsig",
   fun _ _ => Except.error ⟨"ContractFunctionExecutionError", "execution reverted"⟩⟩

/-- A controller with only a relaying wallet (chain id 1, account `0xa11ce`). -/
def cDirect : Controller := ⟨some ⟨some ⟨1⟩, some ⟨"0xa11ce"⟩⟩, none, "0xreg"⟩

/-- A controller with relayer `0xb0b` and meta-transaction signer `0xa11ce`,
both on chain 1. -/
def cMeta : Controller :=
  ⟨some ⟨some ⟨1⟩, some ⟨"0xb0b"⟩⟩, some ⟨some ⟨1⟩, some ⟨"0xa11ce"⟩⟩, "0xreg"⟩

/-- Like `cMeta` but the meta-transaction client has no chain set. -/
def cMetaNoChain : Controller :=
  ⟨some ⟨some ⟨1⟩, some ⟨"0xb0b"⟩⟩, some ⟨none, some ⟨"0xa11ce"⟩⟩, "0xreg"⟩

/-- Like `cMeta` but the meta-transaction client is on chain 5. -/
def cMetaWrongChain : Controller :=
  ⟨some ⟨some ⟨1⟩, some ⟨"0xb0b"⟩⟩, some ⟨some ⟨5⟩, some ⟨"0xa11ce"⟩⟩, "0xreg"⟩

/-! ## Claims -/

/-- Claim C1: for every operation kind that supports optional metadata, the
schema of the metadata variant is exactly the schema of the non-metadata
variant with one `metadata` field (`bytes` for single-hint, `bytes[]` for
batch) inserted immediately before `signer`; without metadata the field is
entirely absent; the field order for those kinds is
(namespace, list, key(s), value(s), [metadata], signer, nonce); and every
variant's schema ends with `signer: address`, `nonce: uint256`. -/
theorem claim1_metadata_schema_insertion :
    (∀ p ∈ metadataVariantPairs,
      (getSignedDataType p.2.1).primaryType = (getSignedDataType p.1).primaryType ∧
      (getSignedDataType p.2.1).fields =
        insertMetadataBeforeSigner p.2.2 (getSignedDataType p.1).fields ∧
      "metadata" ∉ fieldNames (getSignedDataType p.1) ∧
      ∃ kv ∈ [["key", "value"], ["keys", "values"]],
        fieldNames (getSignedDataType p.1) =
          ["namespace", "list"] ++ kv ++ ["signer", "nonce"] ∧
        fieldNames (getSignedDataType p.2.1) =
          ["namespace", "list"] ++ kv ++ ["metadata", "signer", "nonce"]) ∧
    (∀ t : SignedDataType,
      (getSignedDataType t).fields.reverse.take 2 =
        [⟨"nonce", "uint256"⟩, ⟨"signer", "address"⟩]) :=
  ⟨by decide, fun t => by cases t <;> decide⟩

/-- Claim C9: `getHint`, `isListOwner` and `isListDelegate` are pure
pass-throughs of the registry reads `getHint`, `identityIsOwner` and
`identityIsDelegate`, with arguments forwarded in the same order; they hold
for every controller — in particular one with no wallet client, chain or
account — and perform no other external call and no check of their own. -/
theorem claim9_read_ops_pass_through (c : Controller) (env : Env)
    (ns listId key owner delegate : String) :
    c.getHint env ns listId key =
      (env.getHint ns listId key, [ExtCall.readGetHint ns listId key]) ∧
    c.isListOwner env ns listId owner =
      (env.identityIsOwner ns listId owner, [ExtCall.readIdentityIsOwner ns listId owner]) ∧
    c.isListDelegate env ns listId delegate =
      (env.identityIsDelegate ns listId delegate,
       [ExtCall.readIdentityIsDelegate ns listId delegate]) :=
  ⟨rfl, rfl, rfl⟩

/-- Claim C10: the signed operations compare chains with JavaScript loose
inequality over possibly-undefined `chain?.id`: a meta-transaction client
with an account but no chain, against a relayer with chain and account,
fails with the same-chain mismatch error (a plain `Error`, not the
missing-chain `getEIP712Domain` error nor the `metaTransactionWalletClient`
missing error), and no external call at all is made — no authorization
read, no nonce fetch, no signature request. -/
theorem claim10_loose_chain_check (env : Env) (wchain : Chain)
    (waddr maddr caddr : String) (ns listId key value : String) (md : Option String)
    (keys values : List String) (mds : Option (List String)) :
    (Controller.mk (some ⟨some wchain, some ⟨waddr⟩⟩) (some ⟨none, some ⟨maddr⟩⟩)
        caddr).setHintSigned env ns listId key value md =
      (Except.error (mkError msgSameChain), []) ∧
    (Controller.mk (some ⟨some wchain, some ⟨waddr⟩⟩) (some ⟨none, some ⟨maddr⟩⟩)
        caddr).setHintsSigned env ns listId keys values mds =
      (Except.error (mkError msgSameChain), []) ∧
    mkError msgSameChain ≠ mkError msgWalletChainSet ∧
    mkError msgSameChain ≠ mkError msgMetaTxNotSet ∧
    mkError msgSameChain ≠ clientNotSetError "MetaTransactionWalletClient" :=
  ⟨rfl, rfl, by decide, by decide, by decide⟩

/-- Claim C4 (amended): when the two clients' chain ids are loosely unequal,
both signed operations fail with the plain chain-mismatch `Error` — not a
`ClientMisconfiguredError` instance — and make
no external call: no nonce fetch, no authorization read, no signature
request. -/
theorem claim4_chain_mismatch_blocks (env : Env) (wchain mchain : Chain)
    (waddr maddr caddr : String) (ns listId key value : String) (md : Option String)
    (keys values : List String) (mds : Option (List String))
    (hneq : looseEqOpt (some mchain.id) (some wchain.id) = false) :
    (Controller.mk (some ⟨some wchain, some ⟨waddr⟩⟩) (some ⟨some mchain, some ⟨maddr⟩⟩)
        caddr).setHintSigned env ns listId key value md =
      (Except.error (mkError msgSameChain), []) ∧
    (Controller.mk (some ⟨some wchain, some ⟨waddr⟩⟩) (some ⟨some mchain, some ⟨maddr⟩⟩)
        caddr).setHintsSigned env ns listId keys values mds =
      (Except.error (mkError msgSameChain), []) := by
  constructor <;>
    simp [Controller.setHintSigned, Controller.setHintsSigned, hneq]

/-- Witness for `claim4_chain_mismatch_blocks`: chains 5 and 1 are loosely
unequal and `setHintSigned`/`setHintsSigned` reject without any call. -/
theorem claim4_chain_mismatch_blocks_witness :
    (Controller.mk (some ⟨some ⟨1⟩, some ⟨"0xb0b"⟩⟩) (some ⟨some ⟨5⟩, some ⟨"0xa11ce"⟩⟩)
        "0xreg").setHintSigned envAllOk "0xns" "0xlist" "0xkey" "0xval" none =
      (Except.error (mkError msgSameChain), []) ∧
    (Controller.mk (some ⟨some ⟨1⟩, some ⟨"0xb0b"⟩⟩) (some ⟨some ⟨5⟩, some ⟨"0xa11ce"⟩⟩)
        "0xreg").setHintsSigned envAllOk "0xns" "0xlist" [] [] none =
      (Except.error (mkError msgSameChain), []) :=
  claim4_chain_mismatch_blocks envAllOk ⟨1⟩ ⟨5⟩ "0xb0b" "0xa11ce" "0xreg"
    "0xns" "0xlist" "0xkey" "0xval" none [] [] none rfl

/-- Counterexample to claim C4 as stated: on mismatched chains the surfaced
error is a plain `Error` (`name = "Error"`), not a `ClientMisconfiguredError`
(whose `name` is the class name), so the operation does not fail with a
ClientMisconfigured error in the sense of the `src/errors.ts` taxonomy. -/
theorem claim4_counterexample :
    (cMetaWrongChain.setHintSigned envAllOk "0xns" "0xlist" "0xkey" "0xval" none).1 =
      Except.error (mkError msgSameChain) ∧
    (mkError msgSameChain).name = "Error" ∧
    (mkError msgSameChain).name ≠ (clientMisconfiguredError msgSameChain).name :=
  ⟨rfl, rfl, by decide⟩

/-- Claim C3 (amended): when the owner query returns `false` for the
relevant principal (the relaying wallet for direct writes, the
meta-transaction signer for signed writes), every write-family operation
fails — with a plain wrapped `Error` embedding the not-owner message, not a
`NotOwnerError`/`NotDelegateError` instance —
and its trace is exactly the one authorization read: no contract write is
invoked and, for signed variants, no signature request is made. -/
theorem claim3_auth_false_blocks_writes (env : Env) (wchain : Chain)
    (waddr maddr caddr : String) (ns listId key value delegate : String)
    (untilTs : Nat) (md : Option String) (keys values : List String)
    (mds : Option (List String))
    (hw : env.identityIsOwner ns listId waddr = Except.ok false)
    (hm : env.identityIsOwner ns listId maddr = Except.ok false) :
    (Controller.mk (some ⟨some wchain, some ⟨waddr⟩⟩) none caddr).setHint
        env ns listId key value md =
      (Except.error (wrapSetHint (mkError msgWalletMustOwn)),
       [ExtCall.readIdentityIsOwner ns listId waddr]) ∧
    (Controller.mk (some ⟨some wchain, some ⟨waddr⟩⟩) none caddr).setHints
        env ns listId keys values mds =
      (Except.error (wrapSetHints (mkError msgWalletMustOwn)),
       [ExtCall.readIdentityIsOwner ns listId waddr]) ∧
    (Controller.mk (some ⟨some wchain, some ⟨waddr⟩⟩) none caddr).addListDelegate
        env ns listId delegate untilTs =
      (Except.error (wrapAddListDelegate (mkError msgWalletMustOwn)),
       [ExtCall.readIdentityIsOwner ns listId waddr]) ∧
    (Controller.mk (some ⟨some wchain, some ⟨waddr⟩⟩)
        (some ⟨some wchain, some ⟨maddr⟩⟩) caddr).setHintSigned
        env ns listId key value md =
      (Except.error (wrapSetHintSigned (mkError msgMetaTxMustOwn)),
       [ExtCall.readIdentityIsOwner ns listId maddr]) ∧
    (Controller.mk (some ⟨some wchain, some ⟨waddr⟩⟩)
        (some ⟨some wchain, some ⟨maddr⟩⟩) caddr).setHintsSigned
        env ns listId keys values mds =
      (Except.error (wrapSetHintsSigned (mkError msgMetaTxMustOwn)),
       [ExtCall.readIdentityIsOwner ns listId maddr]) := by
  refine ⟨?_, ?_, ?_, ?_, ?_⟩ <;>
    simp [Controller.setHint, Controller.setHints, Controller.addListDelegate,
      Controller.setHintSigned, Controller.setHintsSigned, looseEqOpt, hw, hm]

/-- Witness for `claim3_auth_false_blocks_writes` at a concrete controller
and an environment whose owner query answers `false`. -/
theorem claim3_auth_false_blocks_writes_witness :
    (Controller.mk (some ⟨some ⟨1⟩, some ⟨"0xb0b"⟩⟩) none "0xreg").setHint
        envAuthFalse "0xns" "0xlist" "0xkey" "0xval" none =
      (Except.error (wrapSetHint (mkError msgWalletMustOwn)),
       [ExtCall.readIdentityIsOwner "0xns" "0xlist" "0xb0b"]) ∧
    (Controller.mk (some ⟨some ⟨1⟩, some ⟨"0xb0b"⟩⟩) none "0xreg").setHints
        envAuthFalse "0xns" "0xlist" [] [] none =
      (Except.error (wrapSetHints (mkError msgWalletMustOwn)),
       [ExtCall.readIdentityIsOwner "0xns" "0xlist" "0xb0b"]) ∧
    (Controller.mk (some ⟨some ⟨1⟩, some ⟨"0xb0b"⟩⟩) none "0xreg").addListDelegate
        envAuthFalse "0xns" "0xlist" "0xdel" 99 =
      (Except.error (wrapAddListDelegate (mkError msgWalletMustOwn)),
       [ExtCall.readIdentityIsOwner "0xns" "0xlist" "0xb0b"]) ∧
    (Controller.mk (some ⟨some ⟨1⟩, some ⟨"0xb0b"⟩⟩)
        (some ⟨some ⟨1⟩, some ⟨"0xa11ce"⟩⟩) "0xreg").setHintSigned
        envAuthFalse "0xns" "0xlist" "0xkey" "0xval" none =
      (Except.error (wrapSetHintSigned (mkError msgMetaTxMustOwn)),
       [ExtCall.readIdentityIsOwner "0xns" "0xlist" "0xa11ce"]) ∧
    (Controller.mk (some ⟨some ⟨1⟩, some ⟨"0xb0b"⟩⟩)
        (some ⟨some ⟨1⟩, some ⟨"0xa11ce"⟩⟩) "0xreg").setHintsSigned
        envAuthFalse "0xns" "0xlist" [] [] none =
      (Except.error (wrapSetHintsSigned (mkError msgMetaTxMustOwn)),
       [ExtCall.readIdentityIsOwner "0xns" "0xlist" "0xa11ce"]) :=
  claim3_auth_false_blocks_writes envAuthFalse ⟨1⟩ "0xb0b" "0xa11ce" "0xreg"
    "0xns" "0xlist" "0xkey" "0xval" "0xdel" 99 none [] [] none rfl rfl

/-- Counterexample to claim C3 as stated: with the owner query answering
`false`, `setHint` rejects with a plain wrapped `Error` whose `name` is
`"Error"` — not a NotAuthorized-derived error class of `src/errors.ts`
(those set `name` to their class name). -/
theorem claim3_counterexample :
    (cDirect.setHint envAuthFalse "0xns" "0xlist" "0xkey" "0xval" none).1 =
      Except.error (mkError ("Failed to set hint: " ++ msgWalletMustOwn)) ∧
    (mkError ("Failed to set hint: " ++ msgWalletMustOwn)).name = "Error" ∧
    (mkError ("Failed to set hint: " ++ msgWalletMustOwn)).name ∉ taxonomyErrorNames :=
  ⟨rfl, rfl, by decide⟩

/-- The EIP-712 domain a successful signed operation builds: fixed name,
live registry version, the chain id, the registry address. -/
def liveDomain (ver : String) (chainId : Nat) (caddr : String) : Domain :=
  ⟨"TrustedHintRegistry", ver, chainId, caddr⟩

/-- Characterization of a fully successful `setHintSigned` run: with both
clients configured on loosely equal chains, the signer passing the owner
check, and nonce/version/signature responses given, the operation performs
exactly the five external calls in source order and returns the write
transport's result unchanged. -/
theorem setHintSigned_success_run (env : Env) (wchain mchain : Chain)
    (waddr maddr caddr : String) (ns listId key value : String) (md : Option String)
    (nonce : Nat) (ver sig : String)
    (hchain : mchain.id = wchain.id)
    (hauth : env.identityIsOwner ns listId maddr = Except.ok true)
    (hnonce : env.nonces maddr = Except.ok nonce)
    (hver : env.version = Except.ok ver)
    (hsig : env.signTypedData maddr (liveDomain ver mchain.id caddr)
        (setHintSignedTypes md) "SetHintSigned"
        (setHintSignedMessage ns listId key value md maddr nonce) = Except.ok sig) :
    (Controller.mk (some ⟨some wchain, some ⟨waddr⟩⟩) (some ⟨some mchain, some ⟨maddr⟩⟩)
        caddr).setHintSigned env ns listId key value md =
      (env.write "setHintSigned" (setHintSignedArgs ns listId key value md maddr sig),
       [ExtCall.readIdentityIsOwner ns listId maddr,
        ExtCall.readNonces maddr,
        ExtCall.readVersion,
        ExtCall.signTypedData maddr (liveDomain ver mchain.id caddr)
          (setHintSignedTypes md) "SetHintSigned"
          (setHintSignedMessage ns listId key value md maddr nonce),
        ExtCall.writeCall "setHintSigned"
          (setHintSignedArgs ns listId key value md maddr sig) wchain.id waddr]) := by
  simp [Controller.setHintSigned, looseEqOpt, hchain, hauth, hnonce, hver,
    liveDomain] at hsig ⊢
  simp [hsig]

/-- Characterization of a fully successful `setHintsSigned` run, exactly as
`setHintSigned_success_run`. -/
theorem setHintsSigned_success_run (env : Env) (wchain mchain : Chain)
    (waddr maddr caddr : String) (ns listId : String) (keys values : List String)
    (mds : Option (List String)) (nonce : Nat) (ver sig : String)
    (hchain : mchain.id = wchain.id)
    (hauth : env.identityIsOwner ns listId maddr = Except.ok true)
    (hnonce : env.nonces maddr = Except.ok nonce)
    (hver : env.version = Except.ok ver)
    (hsig : env.signTypedData maddr (liveDomain ver mchain.id caddr)
        (setHintsSignedTypes mds) "SetHintsSigned"
        (setHintsSignedMessage ns listId keys values mds maddr nonce) = Except.ok sig) :
    (Controller.mk (some ⟨some wchain, some ⟨waddr⟩⟩) (some ⟨some mchain, some ⟨maddr⟩⟩)
        caddr).setHintsSigned env ns listId keys values mds =
      (env.write "setHintsSigned" (setHintsSignedArgs ns listId keys values mds maddr sig),
       [ExtCall.readIdentityIsOwner ns listId maddr,
        ExtCall.readNonces maddr,
        ExtCall.readVersion,
        ExtCall.signTypedData maddr (liveDomain ver mchain.id caddr)
          (setHintsSignedTypes mds) "SetHintsSigned"
          (setHintsSignedMessage ns listId keys values mds maddr nonce),
        ExtCall.writeCall "setHintsSigned"
          (setHintsSignedArgs ns listId keys values mds maddr sig) wchain.id waddr]) := by
  simp [Controller.setHintsSigned, looseEqOpt, hchain, hauth, hnonce, hver,
    liveDomain] at hsig ⊢
  simp [hsig]

/-- The domain of a signature-request call, if the call is one. -/
def domainOfCall : ExtCall → Option Domain
  | .signTypedData _ d _ _ _ => some d
  | _ => none

/-- Whether a call is a signature request. -/
def isSignCall : ExtCall → Bool
  | .signTypedData _ _ _ _ _ => true
  | _ => false

/-- Whether a call is a contract write submission. -/
def isWriteCall : ExtCall → Bool
  | .writeCall _ _ _ _ => true
  | _ => false

/-- Whether every nonce fetch in a trace is immediately followed by a
signature request (no other external call in between). -/
def nonceImmediatelyBeforeSign (t : List ExtCall) : Bool :=
  (List.range t.length).all fun i =>
    match t.get? i with
    | some (ExtCall.readNonces _) =>
      match t.get? (i + 1) with
      | some c => isSignCall c
      | none => false
    | _ => true

/-- Claim C5: in every signed operation that reaches the signing step, the
EIP-712 domain passed to the signature request is computed in that
invocation — the registry version query appears in the same invocation's
trace — and equals `{name: "TrustedHintRegistry", version: the live version
read, chainId: the relaying wallet's configured chain id, verifyingContract:
the registry contract address}`; it is the only domain ever signed over in
that invocation (the model is stateless across invocations, so nothing can
be cached between calls). -/
theorem claim5_domain_recomputed_live (env : Env) (wchain mchain : Chain)
    (waddr maddr caddr : String) (ns listId key value : String) (md : Option String)
    (keys values : List String) (mds : Option (List String))
    (nonce : Nat) (ver sig sig2 : String)
    (hchain : mchain.id = wchain.id)
    (hauth : env.identityIsOwner ns listId maddr = Except.ok true)
    (hnonce : env.nonces maddr = Except.ok nonce)
    (hver : env.version = Except.ok ver)
    (hsig : env.signTypedData maddr (liveDomain ver mchain.id caddr)
        (setHintSignedTypes md) "SetHintSigned"
        (setHintSignedMessage ns listId key value md maddr nonce) = Except.ok sig)
    (hsig2 : env.signTypedData maddr (liveDomain ver mchain.id caddr)
        (setHintsSignedTypes mds) "SetHintsSigned"
        (setHintsSignedMessage ns listId keys values mds maddr nonce) = Except.ok sig2) :
    ((Controller.mk (some ⟨some wchain, some ⟨waddr⟩⟩) (some ⟨some mchain, some ⟨maddr⟩⟩)
        caddr).setHintSigned env ns listId key value md).2.filterMap domainOfCall =
      [liveDomain ver wchain.id caddr] ∧
    ExtCall.readVersion ∈ ((Controller.mk (some ⟨some wchain, some ⟨waddr⟩⟩)
        (some ⟨some mchain, some ⟨maddr⟩⟩) caddr).setHintSigned
        env ns listId key value md).2 ∧
    ((Controller.mk (some ⟨some wchain, some ⟨waddr⟩⟩) (some ⟨some mchain, some ⟨maddr⟩⟩)
        caddr).setHintsSigned env ns listId keys values mds).2.filterMap domainOfCall =
      [liveDomain ver wchain.id caddr] ∧
    ExtCall.readVersion ∈ ((Controller.mk (some ⟨some wchain, some ⟨waddr⟩⟩)
        (some ⟨some mchain, some ⟨maddr⟩⟩) caddr).setHintsSigned
        env ns listId keys values mds).2 := by
  rw [setHintSigned_success_run env wchain mchain waddr maddr caddr ns listId key value
    md nonce ver sig hchain hauth hnonce hver hsig,
    setHintsSigned_success_run env wchain mchain waddr maddr caddr ns listId keys values
    mds nonce ver sig2 hchain hauth hnonce hver hsig2]
  simp [domainOfCall, hchain]

/-- Witness for `claim5_domain_recomputed_live` on a concrete controller
(relayer `0xb0b` and signer `0xa11ce` on chain 1) and the all-ok
environment reporting version `1.0.0`. -/
theorem claim5_domain_recomputed_live_witness :
    ((Controller.mk (some ⟨some ⟨1⟩, some ⟨"0xb0b"⟩⟩) (some ⟨some ⟨1⟩, some ⟨"0xa11ce"⟩⟩)
        "0xreg").setHintSigned envAllOk "0xns" "0xlist" "0xkey" "0xval"
        none).2.filterMap domainOfCall = [liveDomain "1.0.0" 1 "0xreg"] ∧
    ExtCall.readVersion ∈ ((Controller.mk (some ⟨some ⟨1⟩, some ⟨"0xb0b"⟩⟩)
        (some ⟨some ⟨1⟩, some ⟨"0xa11ce"⟩⟩) "0xreg").setHintSigned envAllOk
        "0xns" "0xlist" "0xkey" "0xval" none).2 ∧
    ((Controller.mk (some ⟨some ⟨1⟩, some ⟨"0xb0b"⟩⟩) (some ⟨some ⟨1⟩, some ⟨"0xa11ce"⟩⟩)
        "0xreg").setHintsSigned envAllOk "0xns" "0xlist" ["0xk0"] ["0xv0"]
        none).2.filterMap domainOfCall = [liveDomain "1.0.0" 1 "0xreg"] ∧
    ExtCall.readVersion ∈ ((Controller.mk (some ⟨some ⟨1⟩, some ⟨"0xb0b"⟩⟩)
        (some ⟨some ⟨1⟩, some ⟨"0xa11ce"⟩⟩) "0xreg").setHintsSigned envAllOk
        "0xns" "0xlist" ["0xk0"] ["0xv0"] none).2 :=
  claim5_domain_recomputed_live envAllOk ⟨1⟩ ⟨1⟩ "0xb0b" "0xa11ce" "0xreg"
    "0xns" "0xlist" "0xkey" "0xval" none ["0xk0"] ["0xv0"] none 7 "1.0.0"
    "0xsig" "0xsig" rfl rfl rfl rfl rfl rfl

/-- Claim C6 (amended): within a signed operation the external calls occur
in the strict order: authorization read (returning true), nonce fetch,
registry version query (for the EIP-712 domain), signature request, write
submission. Exactly one external call — the version query — separates the
nonce fetch from the signature request, and the write occurs only after
the signature is obtained. -/
theorem claim6_signed_call_order (env : Env) (wchain mchain : Chain)
    (waddr maddr caddr : String) (ns listId key value : String) (md : Option String)
    (keys values : List String) (mds : Option (List String))
    (nonce : Nat) (ver sig sig2 : String)
    (hchain : mchain.id = wchain.id)
    (hauth : env.identityIsOwner ns listId maddr = Except.ok true)
    (hnonce : env.nonces maddr = Except.ok nonce)
    (hver : env.version = Except.ok ver)
    (hsig : env.signTypedData maddr (liveDomain ver mchain.id caddr)
        (setHintSignedTypes md) "SetHintSigned"
        (setHintSignedMessage ns listId key value md maddr nonce) = Except.ok sig)
    (hsig2 : env.signTypedData maddr (liveDomain ver mchain.id caddr)
        (setHintsSignedTypes mds) "SetHintsSigned"
        (setHintsSignedMessage ns listId keys values mds maddr nonce) = Except.ok sig2) :
    (∃ s w, ((Controller.mk (some ⟨some wchain, some ⟨waddr⟩⟩)
        (some ⟨some mchain, some ⟨maddr⟩⟩) caddr).setHintSigned
        env ns listId key value md).2 =
        [ExtCall.readIdentityIsOwner ns listId maddr, ExtCall.readNonces maddr,
         ExtCall.readVersion, s, w] ∧
      isSignCall s = true ∧ isWriteCall w = true) ∧
    (∃ s w, ((Controller.mk (some ⟨some wchain, some ⟨waddr⟩⟩)
        (some ⟨some mchain, some ⟨maddr⟩⟩) caddr).setHintsSigned
        env ns listId keys values mds).2 =
        [ExtCall.readIdentityIsOwner ns listId maddr, ExtCall.readNonces maddr,
         ExtCall.readVersion, s, w] ∧
      isSignCall s = true ∧ isWriteCall w = true) := by
  rw [setHintSigned_success_run env wchain mchain waddr maddr caddr ns listId key value
    md nonce ver sig hchain hauth hnonce hver hsig,
    setHintsSigned_success_run env wchain mchain waddr maddr caddr ns listId keys values
    mds nonce ver sig2 hchain hauth hnonce hver hsig2]
  exact ⟨⟨_, _, rfl, rfl, rfl⟩, ⟨_, _, rfl, rfl, rfl⟩⟩

/-- Witness for `claim6_signed_call_order` on a concrete controller and the
all-ok environment. -/
theorem claim6_signed_call_order_witness :
    (∃ s w, ((Controller.mk (some ⟨some ⟨1⟩, some ⟨"0xb0b"⟩⟩)
        (some ⟨some ⟨1⟩, some ⟨"0xa11ce"⟩⟩) "0xreg").setHintSigned
        envAllOk "0xns" "0xlist" "0xkey" "0xval" none).2 =
        [ExtCall.readIdentityIsOwner "0xns" "0xlist" "0xa11ce",
         ExtCall.readNonces "0xa11ce", ExtCall.readVersion, s, w] ∧
      isSignCall s = true ∧ isWriteCall w = true) ∧
    (∃ s w, ((Controller.mk (some ⟨some ⟨1⟩, some ⟨"0xb0b"⟩⟩)
        (some ⟨some ⟨1⟩, some ⟨"0xa11ce"⟩⟩) "0xreg").setHintsSigned
        envAllOk "0xns" "0xlist" ["0xk0"] ["0xv0"] none).2 =
        [ExtCall.readIdentityIsOwner "0xns" "0xlist" "0xa11ce",
         ExtCall.readNonces "0xa11ce", ExtCall.readVersion, s, w] ∧
      isSignCall s = true ∧ isWriteCall w = true) :=
  claim6_signed_call_order envAllOk ⟨1⟩ ⟨1⟩ "0xb0b" "0xa11ce" "0xreg"
    "0xns" "0xlist" "0xkey" "0xval" none ["0xk0"] ["0xv0"] none 7 "1.0.0"
    "0xsig" "0xsig" rfl rfl rfl rfl rfl rfl

/-- Counterexample to claim C6 as stated: in a concrete successful
`setHintSigned` run the trace is auth read, nonce fetch, version query,
signature request, write — the nonce fetch is **not** immediately before
the signature request: the registry version query (an external call) sits
between them. -/
theorem claim6_counterexample :
    (cMeta.setHintSigned envAllOk "0xns" "0xlist" "0xkey" "0xval" none).2 =
      [ExtCall.readIdentityIsOwner "0xns" "0xlist" "0xa11ce",
       ExtCall.readNonces "0xa11ce",
       ExtCall.readVersion,
       ExtCall.signTypedData "0xa11ce" (liveDomain "1.0.0" 1 "0xreg")
         (setHintSignedTypes none) "SetHintSigned"
         (setHintSignedMessage "0xns" "0xlist" "0xkey" "0xval" none "0xa11ce" 7),
       ExtCall.writeCall "setHintSigned"
         (setHintSignedArgs "0xns" "0xlist" "0xkey" "0xval" none "0xa11ce" "0xsig")
         1 "0xb0b"] ∧
    nonceImmediatelyBeforeSign
      (cMeta.setHintSigned envAllOk "0xns" "0xlist" "0xkey" "0xval" none).2 = false := by
  exact ⟨rfl, by decide⟩

/-- The given address is the principal of every principal-bearing call:
authorization reads query it, the nonce fetch and signature request are for
it, and a write's embedded signer argument (second-to-last position) equals
it. Calls with no principal (hint read, version read) carry no obligation;
the write's submitting account is deliberately not constrained (it is the
relayer). -/
def usesOnlySigner (maddr : String) : ExtCall → Bool
  | ExtCall.readIdentityIsOwner _ _ owner => owner == maddr
  | ExtCall.readIdentityIsDelegate _ _ d => d == maddr
  | ExtCall.readNonces a => a == maddr
  | ExtCall.signTypedData a _ _ _ _ => a == maddr
  | ExtCall.writeCall _ args _ _ => args.reverse.get? 1 == some (Value.str maddr)
  | _ => true

/-- Claim C2: for every signed operation, in every environment and every
controller whose meta-transaction client holds an account, the
authorization check queries the meta-transaction signer's address, the
nonce and signature are the signer's, and the signer address embedded in
the final on-chain argument list is the meta-transaction account's address
— never the relaying wallet's (the relaying account appears only as the
submitting account of the write, which is unconstrained here). -/
theorem claim2_signed_ops_use_meta_signer (wcOpt : Option WalletClient)
    (mchain : Option Chain) (maddr caddr : String) (env : Env)
    (ns listId key value : String) (md : Option String)
    (keys values : List String) (mds : Option (List String)) :
    ((Controller.mk wcOpt (some ⟨mchain, some ⟨maddr⟩⟩) caddr).setHintSigned
        env ns listId key value md).2.all (usesOnlySigner maddr) = true ∧
    ((Controller.mk wcOpt (some ⟨mchain, some ⟨maddr⟩⟩) caddr).setHintsSigned
        env ns listId keys values mds).2.all (usesOnlySigner maddr) = true := by
  cases md <;> cases mds <;>
  · constructor <;>
    · simp only [Controller.setHintSigned, Controller.setHintsSigned]
      repeat' split
      all_goals
        simp_all [usesOnlySigner, setHintSignedArgs, setHintsSignedArgs]

/-- Claim C7 (amended): every failure a write-family operation surfaces is
either an error the controller itself threw — always a plain `Error`
(`name = "Error"`), distinguishable only by its message text, never an
instance of the `src/errors.ts` taxonomy classes — or the rejection of the
submitted write call passed through unchanged from the chain client. -/
theorem claim7_failure_kinds (c : Controller) (env : Env)
    (ns listId key value delegate : String) (untilTs : Nat) (md : Option String)
    (keys values : List String) (mds : Option (List String)) :
    (∀ e, (c.setHint env ns listId key value md).1 = Except.error e →
      e.name = "Error" ∨ ∃ args, env.write "setHint" args = Except.error e) ∧
    (∀ e, (c.setHints env ns listId keys values mds).1 = Except.error e →
      e.name = "Error" ∨ ∃ args, env.write "setHints" args = Except.error e) ∧
    (∀ e, (c.addListDelegate env ns listId delegate untilTs).1 = Except.error e →
      e.name = "Error" ∨ ∃ args, env.write "addListDelegate" args = Except.error e) ∧
    (∀ e, (c.setHintSigned env ns listId key value md).1 = Except.error e →
      e.name = "Error" ∨ ∃ args, env.write "setHintSigned" args = Except.error e) ∧
    (∀ e, (c.setHintsSigned env ns listId keys values mds).1 = Except.error e →
      e.name = "Error" ∨ ∃ args, env.write "setHintsSigned" args = Except.error e) := by
  refine ⟨?_, ?_, ?_, ?_, ?_⟩ <;>
  · intro e he
    simp only [Controller.setHint, Controller.setHints, Controller.addListDelegate,
      Controller.setHintSigned, Controller.setHintsSigned] at he
    repeat' split at he
    all_goals
      first
      | (right; exact ⟨_, he⟩)
      | (left; exact Except.error.inj he ▸ rfl)

/-- Counterexample to claim C7 as stated: a reverting write submission
surfaces to the caller as the chain client's own error, whose kind
(`ContractFunctionExecutionError`) is none of the `src/errors.ts` taxonomy
kinds and not even a plain `Error`; no operation-specific wrapper is
applied (the write's promise is returned without `await`). -/
theorem claim7_counterexample :
    (cDirect.setHint envWriteRejects "0xns" "0xlist" "0xkey" "0xval" none).1 =
      Except.error ⟨"ContractFunctionExecutionError", "execution reverted"⟩ ∧
    "ContractFunctionExecutionError" ∉ taxonomyErrorNames ∧
    "ContractFunctionExecutionError" ≠ "Error" :=
  ⟨rfl, by decide, by decide⟩

/-- Claim C8 (amended): failures of the `await`ed pipeline steps — the
authorization read rejecting, the authorization check answering false, and, for signed
variants, the nonce fetch, version read or signature request rejecting —
are wrapped into the operation-specific `Failed to ...` error embedding the
cause message; a rejection of the submitted write call, however, propagates
to the caller **unwrapped** (the write's promise is returned without
`await`, escaping the `catch`). In every case the operation's outcome is a
rejection — no failure is swallowed. -/
theorem claim8_wrapping_and_write_passthrough (env : Env) (wchain : Chain)
    (waddr maddr caddr : String) (ns listId key value delegate : String)
    (untilTs : Nat) (md : Option String) (keys values : List String)
    (mds : Option (List String)) :
    (∀ e0, env.identityIsOwner ns listId waddr = Except.error e0 →
      (Controller.mk (some ⟨some wchain, some ⟨waddr⟩⟩) none caddr).setHint
          env ns listId key value md =
        (Except.error (wrapSetHint e0), [ExtCall.readIdentityIsOwner ns listId waddr])) ∧
    (env.identityIsOwner ns listId waddr = Except.ok false →
      (Controller.mk (some ⟨some wchain, some ⟨waddr⟩⟩) none caddr).setHint
          env ns listId key value md =
        (Except.error (wrapSetHint (mkError msgWalletMustOwn)),
         [ExtCall.readIdentityIsOwner ns listId waddr])) ∧
    (env.identityIsOwner ns listId waddr = Except.ok true →
      ∀ e0, env.write "setHint" (setHintArgs ns listId key value md) = Except.error e0 →
      ((Controller.mk (some ⟨some wchain, some ⟨waddr⟩⟩) none caddr).setHint
          env ns listId key value md).1 = Except.error e0) ∧
    (∀ e0, env.identityIsOwner ns listId waddr = Except.error e0 →
      (Controller.mk (some ⟨some wchain, some ⟨waddr⟩⟩) none caddr).setHints
          env ns listId keys values mds =
        (Except.error (wrapSetHints e0), [ExtCall.readIdentityIsOwner ns listId waddr])) ∧
    (env.identityIsOwner ns listId waddr = Except.ok false →
      (Controller.mk (some ⟨some wchain, some ⟨waddr⟩⟩) none caddr).setHints
          env ns listId keys values mds =
        (Except.error (wrapSetHints (mkError msgWalletMustOwn)),
         [ExtCall.readIdentityIsOwner ns listId waddr])) ∧
    (env.identityIsOwner ns listId waddr = Except.ok true →
      ∀ e0, env.write "setHints" (setHintsArgs ns listId keys values mds) = Except.error e0 →
      ((Controller.mk (some ⟨some wchain, some ⟨waddr⟩⟩) none caddr).setHints
          env ns listId keys values mds).1 = Except.error e0) ∧
    (∀ e0, env.identityIsOwner ns listId waddr = Except.error e0 →
      (Controller.mk (some ⟨some wchain, some ⟨waddr⟩⟩) none caddr).addListDelegate
          env ns listId delegate untilTs =
        (Except.error (wrapAddListDelegate e0),
         [ExtCall.readIdentityIsOwner ns listId waddr])) ∧
    (env.identityIsOwner ns listId waddr = Except.ok false →
      (Controller.mk (some ⟨some wchain, some ⟨waddr⟩⟩) none caddr).addListDelegate
          env ns listId delegate untilTs =
        (Except.error (wrapAddListDelegate (mkError msgWalletMustOwn)),
         [ExtCall.readIdentityIsOwner ns listId waddr])) ∧
    (env.identityIsOwner ns listId waddr = Except.ok true →
      ∀ e0, env.write "addListDelegate" (addListDelegateArgs ns listId delegate untilTs) =
          Except.error e0 →
      ((Controller.mk (some ⟨some wchain, some ⟨waddr⟩⟩) none caddr).addListDelegate
          env ns listId delegate untilTs).1 = Except.error e0) ∧
    (∀ e0, env.identityIsOwner ns listId maddr = Except.error e0 →
      (Controller.mk (some ⟨some wchain, some ⟨waddr⟩⟩)
          (some ⟨some wchain, some ⟨maddr⟩⟩) caddr).setHintSigned
          env ns listId key value md =
        (Except.error (wrapSetHintSigned e0),
         [ExtCall.readIdentityIsOwner ns listId maddr])) ∧
    (env.identityIsOwner ns listId maddr = Except.ok false →
      (Controller.mk (some ⟨some wchain, some ⟨waddr⟩⟩)
          (some ⟨some wchain, some ⟨maddr⟩⟩) caddr).setHintSigned
          env ns listId key value md =
        (Except.error (wrapSetHintSigned (mkError msgMetaTxMustOwn)),
         [ExtCall.readIdentityIsOwner ns listId maddr])) ∧
    (env.identityIsOwner ns listId maddr = Except.ok true →
      ∀ e0, env.nonces maddr = Except.error e0 →
      (Controller.mk (some ⟨some wchain, some ⟨waddr⟩⟩)
          (some ⟨some wchain, some ⟨maddr⟩⟩) caddr).setHintSigned
          env ns listId key value md =
        (Except.error (wrapSetHintSigned e0),
         [ExtCall.readIdentityIsOwner ns listId maddr, ExtCall.readNonces maddr])) ∧
    (env.identityIsOwner ns listId maddr = Except.ok true →
      ∀ nonce, env.nonces maddr = Except.ok nonce →
      ∀ e0, env.version = Except.error e0 →
      (Controller.mk (some ⟨some wchain, some ⟨waddr⟩⟩)
          (some ⟨some wchain, some ⟨maddr⟩⟩) caddr).setHintSigned
          env ns listId key value md =
        (Except.error (wrapSetHintSigned e0),
         [ExtCall.readIdentityIsOwner ns listId maddr, ExtCall.readNonces maddr,
          ExtCall.readVersion])) ∧
    (env.identityIsOwner ns listId maddr = Except.ok true →
      ∀ nonce, env.nonces maddr = Except.ok nonce →
      ∀ ver, env.version = Except.ok ver →
      ∀ e0, env.signTypedData maddr (liveDomain ver wchain.id caddr)
          (setHintSignedTypes md) "SetHintSigned"
          (setHintSignedMessage ns listId key value md maddr nonce) = Except.error e0 →
      (Controller.mk (some ⟨some wchain, some ⟨waddr⟩⟩)
          (some ⟨some wchain, some ⟨maddr⟩⟩) caddr).setHintSigned
          env ns listId key value md =
        (Except.error (wrapSetHintSigned e0),
         [ExtCall.readIdentityIsOwner ns listId maddr, ExtCall.readNonces maddr,
          ExtCall.readVersion,
          ExtCall.signTypedData maddr (liveDomain ver wchain.id caddr)
            (setHintSignedTypes md) "SetHintSigned"
            (setHintSignedMessage ns listId key value md maddr nonce)])) ∧
    (env.identityIsOwner ns listId maddr = Except.ok true →
      ∀ nonce, env.nonces maddr = Except.ok nonce →
      ∀ ver, env.version = Except.ok ver →
      ∀ sig, env.signTypedData maddr (liveDomain ver wchain.id caddr)
          (setHintSignedTypes md) "SetHintSigned"
          (setHintSignedMessage ns listId key value md maddr nonce) = Except.ok sig →
      ∀ e0, env.write "setHintSigned"
          (setHintSignedArgs ns listId key value md maddr sig) = Except.error e0 →
      ((Controller.mk (some ⟨some wchain, some ⟨waddr⟩⟩)
          (some ⟨some wchain, some ⟨maddr⟩⟩) caddr).setHintSigned
          env ns listId key value md).1 = Except.error e0) ∧
    (∀ e0, env.identityIsOwner ns listId maddr = Except.error e0 →
      (Controller.mk (some ⟨some wchain, some ⟨waddr⟩⟩)
          (some ⟨some wchain, some ⟨maddr⟩⟩) caddr).setHintsSigned
          env ns listId keys values mds =
        (Except.error (wrapSetHintsSigned e0),
         [ExtCall.readIdentityIsOwner ns listId maddr])) ∧
    (env.identityIsOwner ns listId maddr = Except.ok false →
      (Controller.mk (some ⟨some wchain, some ⟨waddr⟩⟩)
          (some ⟨some wchain, some ⟨maddr⟩⟩) caddr).setHintsSigned
          env ns listId keys values mds =
        (Except.error (wrapSetHintsSigned (mkError msgMetaTxMustOwn)),
         [ExtCall.readIdentityIsOwner ns listId maddr])) ∧
    (env.identityIsOwner ns listId maddr = Except.ok true →
      ∀ e0, env.nonces maddr = Except.error e0 →
      (Controller.mk (some ⟨some wchain, some ⟨waddr⟩⟩)
          (some ⟨some wchain, some ⟨maddr⟩⟩) caddr).setHintsSigned
          env ns listId keys values mds =
        (Except.error (wrapSetHintsSigned e0),
         [ExtCall.readIdentityIsOwner ns listId maddr, ExtCall.readNonces maddr])) ∧
    (env.identityIsOwner ns listId maddr = Except.ok true →
      ∀ nonce, env.nonces maddr = Except.ok nonce →
      ∀ e0, env.version = Except.error e0 →
      (Controller.mk (some ⟨some wchain, some ⟨waddr⟩⟩)
          (some ⟨some wchain, some ⟨maddr⟩⟩) caddr).setHintsSigned
          env ns listId keys values mds =
        (Except.error (wrapSetHintsSigned e0),
         [ExtCall.readIdentityIsOwner ns listId maddr, ExtCall.readNonces maddr,
          ExtCall.readVersion])) ∧
    (env.identityIsOwner ns listId maddr = Except.ok true →
      ∀ nonce, env.nonces maddr = Except.ok nonce →
      ∀ ver, env.version = Except.ok ver →
      ∀ e0, env.signTypedData maddr (liveDomain ver wchain.id caddr)
          (setHintsSignedTypes mds) "SetHintsSigned"
          (setHintsSignedMessage ns listId keys values mds maddr nonce) = Except.error e0 →
      (Controller.mk (some ⟨some wchain, some ⟨waddr⟩⟩)
          (some ⟨some wchain, some ⟨maddr⟩⟩) caddr).setHintsSigned
          env ns listId keys values mds =
        (Except.error (wrapSetHintsSigned e0),
         [ExtCall.readIdentityIsOwner ns listId maddr, ExtCall.readNonces maddr,
          ExtCall.readVersion,
          ExtCall.signTypedData maddr (liveDomain ver wchain.id caddr)
            (setHintsSignedTypes mds) "SetHintsSigned"
            (setHintsSignedMessage ns listId keys values mds maddr nonce)])) ∧
    (env.identityIsOwner ns listId maddr = Except.ok true →
      ∀ nonce, env.nonces maddr = Except.ok nonce →
      ∀ ver, env.version = Except.ok ver →
      ∀ sig, env.signTypedData maddr (liveDomain ver wchain.id caddr)
          (setHintsSignedTypes mds) "SetHintsSigned"
          (setHintsSignedMessage ns listId keys values mds maddr nonce) = Except.ok sig →
      ∀ e0, env.write "setHintsSigned"
          (setHintsSignedArgs ns listId keys values mds maddr sig) = Except.error e0 →
      ((Controller.mk (some ⟨some wchain, some ⟨waddr⟩⟩)
          (some ⟨some wchain, some ⟨maddr⟩⟩) caddr).setHintsSigned
          env ns listId keys values mds).1 = Except.error e0) := by
  refine ⟨?_, ?_, ?_, ?_, ?_, ?_, ?_, ?_, ?_, ?_, ?_, ?_, ?_, ?_, ?_, ?_, ?_, ?_, ?_,
    ?_, ?_⟩
  case _ => intro e0 h; simp [Controller.setHint, h]
  case _ => intro h; simp [Controller.setHint, h]
  case _ => intro h e0 hw; simp [Controller.setHint, h, hw]
  case _ => intro e0 h; simp [Controller.setHints, h]
  case _ => intro h; simp [Controller.setHints, h]
  case _ => intro h e0 hw; simp [Controller.setHints, h, hw]
  case _ => intro e0 h; simp [Controller.addListDelegate, h]
  case _ => intro h; simp [Controller.addListDelegate, h]
  case _ => intro h e0 hw; simp [Controller.addListDelegate, h, hw]
  case _ => intro e0 h; simp [Controller.setHintSigned, looseEqOpt, h]
  case _ => intro h; simp [Controller.setHintSigned, looseEqOpt, h]
  case _ => intro h e0 hn; simp [Controller.setHintSigned, looseEqOpt, h, hn]
  case _ => intro h nonce hn e0 hv; simp [Controller.setHintSigned, looseEqOpt, h, hn, hv]
  case _ =>
    intro h nonce hn ver hv e0 hs
    simp [Controller.setHintSigned, looseEqOpt, h, hn, hv, liveDomain] at hs ⊢
    simp [hs]
  case _ =>
    intro h nonce hn ver hv sig hs e0 hw
    simp [Controller.setHintSigned, looseEqOpt, h, hn, hv, liveDomain] at hs ⊢
    simp [hs, hw]
  case _ => intro e0 h; simp [Controller.setHintsSigned, looseEqOpt, h]
  case _ => intro h; simp [Controller.setHintsSigned, looseEqOpt, h]
  case _ => intro h e0 hn; simp [Controller.setHintsSigned, looseEqOpt, h, hn]
  case _ => intro h nonce hn e0 hv; simp [Controller.setHintsSigned, looseEqOpt, h, hn, hv]
  case _ =>
    intro h nonce hn ver hv e0 hs
    simp [Controller.setHintsSigned, looseEqOpt, h, hn, hv, liveDomain] at hs ⊢
    simp [hs]
  case _ =>
    intro h nonce hn ver hv sig hs e0 hw
    simp [Controller.setHintsSigned, looseEqOpt, h, hn, hv, liveDomain] at hs ⊢
    simp [hs, hw]

/-- Counterexample to claim C8 as stated: a rejecting write submission in
`setHintSigned` surfaces as the underlying cause itself — it is not wrapped
into an error naming the attempted action (the returned write promise is
never `await`ed inside the `try`, so the `catch` cannot wrap it). -/
theorem claim8_counterexample :
    (cMeta.setHintSigned envWriteRejects "0xns" "0xlist" "0xkey" "0xval" none).1 =
      Except.error ⟨"ContractFunctionExecutionError", "execution reverted"⟩ ∧
    (⟨"ContractFunctionExecutionError", "execution reverted"⟩ : JsError) ≠
      wrapSetHintSigned ⟨"ContractFunctionExecutionError", "execution reverted"⟩ :=
  ⟨rfl, by decide⟩

end TrustedHint
